import Mathlib

/-!
Shallow embedding of the `LlamaWrapper` class from
`src/mods/llamaNodeCppWrapper.ts` of the llama3-wrapper repository.

The wrapper is a stateful lifecycle manager around the external
`node-llama-cpp` inference engine.  We embed the manager state as a record
and every method as a pure function from the state (plus the outcome of the
external engine call it performs, supplied as an explicit parameter, since
the engine is an opaque collaborator) to a new state, a result, and the
list of engine calls that were attempted.  JavaScript `throw` becomes an
`Except` error result; accessing a property of `undefined` becomes an
explicit `TypeError` value.

The external session object (`LlamaChatSession`) is modelled from the
capability interface in the specification: it carries a system prompt, a
chat history list (export returns it, import replaces it wholesale), a
context record, a sequence-presence flag and a disposed flag.
-/

namespace Llama3Wrapper

/-- The five status values of `LlamaStatusType` in the source. -/
inductive LlamaStatusType where
  | uninitialized
  | ready
  | loading
  | generating
  | error
deriving DecidableEq, Repr

/-- `LlamaStatus`: status plus an optional free-text message.  The source
field is `message: string` but `setStatus` stores the optional `payload`
parameter directly, so the message may be absent (undefined). -/
structure LlamaStatus where
  status : LlamaStatusType
  message : Option String
deriving DecidableEq, Repr

/-- The `Gpu` union type, minus `undefined` which we model as `Option.none`
at use sites.  `gfalse` stands for the literal `false` member. -/
inductive Gpu where
  | gfalse
  | auto
  | cuda
  | vulkan
  | metal
deriving DecidableEq, Repr

/-- One turn of a conversation: the tagged variants of `ChatHistoryItem`
from node-llama-cpp as used by this repository (system record, user
record, model-response record). -/
inductive ChatHistoryItem where
  | system (text : String)
  | user (text : String)
  | model (response : List String)
deriving DecidableEq, Repr

/-- The read-only metadata of a loaded model used by `getInfos`. -/
structure ModelHandle where
  filename : String
  trainContextSize : Nat
deriving DecidableEq, Repr

/-- The context metadata read back by `getInfos`. -/
structure ContextInfo where
  batchSize : Nat
  contextSize : Nat
  sequencesLeft : Nat
  stateSize : Nat
  totalSequences : Nat
deriving DecidableEq, Repr

/-- VRAM state reported by the engine. -/
structure VramState where
  total : Nat
  used : Nat
  free : Nat
deriving DecidableEq, Repr

/-- The engine handle (`Llama`) as read by the wrapper: device memory state
and device names. -/
structure LlamaHandle where
  vramState : VramState
  deviceNames : List String
deriving DecidableEq, Repr

/-- The session handle.  Modelled from the spec: the external
`LlamaChatSession` is not part of this repository; the specification
describes it as a conversation context carrying a system prompt and a
mutable chat history, with wholesale import/export, a dispose operation
and an underlying sequence resource. -/
structure SessionHandle where
  systemPrompt : String
  history : List ChatHistoryItem
  context : ContextInfo
  sequence : Bool
  disposed : Bool
deriving DecidableEq, Repr

/-- The mutable fields of the `LlamaWrapper` class.  The opaque module
handle is modelled by a presence flag; `aborted` is the state of the
single `AbortController` signal created in the constructor. -/
structure LlamaWrapper where
  id : String
  session : Option SessionHandle
  status : LlamaStatus
  model : Option ModelHandle
  aborted : Bool
  module : Bool
  llama : Option LlamaHandle
deriving DecidableEq, Repr

/-- A JavaScript error surfaced to the caller: either a thrown `Error`
with a message, or a native `TypeError` from dereferencing `undefined`. -/
inductive JsError where
  | error (msg : String)
  | typeError (msg : String)
deriving DecidableEq, Repr

/-- One call into the external engine, recorded so that theorems can state
that guard failures attempt no engine interaction.  `generate` records the
abort-signal value passed along with the call. -/
inductive EngineCall where
  | importModule
  | getLlama (gpu : Gpu)
  | loadModel (path : String)
  | createContext
  | generate (signalAborted : Bool)
  | exportHistory
  | importHistory (items : List ChatHistoryItem)
  | dispose
  | clearSequenceHistory
deriving DecidableEq, Repr

/-- Decidable equality for `Except`, needed to evaluate operation results
on concrete inputs. -/
instance instDecEqExcept {ε α : Type} [DecidableEq ε] [DecidableEq α] :
    DecidableEq (Except ε α)
  | .ok x, .ok y =>
      if h : x = y then isTrue (congrArg Except.ok h)
      else isFalse (fun hc => h (Except.ok.inj hc))
  | .error x, .error y =>
      if h : x = y then isTrue (congrArg Except.error h)
      else isFalse (fun hc => h (Except.error.inj hc))
  | .ok _, .error _ => isFalse (fun hc => Except.noConfusion hc)
  | .error _, .ok _ => isFalse (fun hc => Except.noConfusion hc)

/-- The outcome of one wrapper method: the post-state, the returned value
or thrown error, and the engine calls attempted during the method. -/
structure OpResult (α : Type) where
  state : LlamaWrapper
  result : Except JsError α
  calls : List EngineCall
deriving DecidableEq, Repr

/-- The fields of `getInfos`'s return value (`LlamaCppInfo`): every field
is optional. -/
structure ModelInfo where
  filename : String
  trainContextSize : Nat
deriving DecidableEq, Repr

/-- Engine sub-record of `LlamaCppInfo`. -/
structure LlamaInfo where
  vramState : VramState
  deviceNames : List String
deriving DecidableEq, Repr

/-- `LlamaCppInfo`: the best-effort diagnostic snapshot. -/
structure LlamaCppInfo where
  id : Option String
  model : Option ModelInfo
  context : Option ContextInfo
  llama : Option LlamaInfo
deriving DecidableEq, Repr

namespace LlamaWrapper

/-- `setStatus(status, payload?)`: overwrite the status record. -/
def setStatus (s : LlamaWrapper) (st : LlamaStatusType) (payload : Option String) :
    LlamaWrapper :=
  { s with status := { status := st, message := payload } }

/-- The constructor: status uninitialized with its construction-time
message, fresh id, unfired abort controller, and no handles. -/
def construct (id : String) : LlamaWrapper :=
  { id := id
    session := none
    status := { status := .uninitialized, message := some "Wrapper not initialized" }
    model := none
    aborted := false
    module := false
    llama := none }

/-- `getStatus()`. -/
def getStatus (s : LlamaWrapper) : LlamaStatus :=
  s.status

/-- `isReady()`. -/
def isReady (s : LlamaWrapper) : Bool :=
  s.status.status = .ready

/-- `getId()`. -/
def getId (s : LlamaWrapper) : String :=
  s.id

/-- The shared error callback installed by the constructor: abort the
controller and, if a session exists, dispose it. -/
def errorCallback (s : LlamaWrapper) : LlamaWrapper :=
  let s1 := { s with aborted := true }
  match s1.session with
  | some sess => { s1 with session := some { sess with disposed := true } }
  | none => s1

/-- `getInfos()`: builds the snapshot field by field, guarding `id`,
`model` and `llama` with presence checks; the `context` block however
reads `this.session.context` without checking `this.session`, so when no
session exists the property access throws a `TypeError`. -/
def getInfos (s : LlamaWrapper) : Except JsError LlamaCppInfo :=
  let idField : Option String := if s.id = "" then none else some s.id
  let modelField : Option ModelInfo :=
    s.model.map (fun m => { filename := m.filename, trainContextSize := m.trainContextSize })
  match s.session with
  | none => .error (.typeError "Cannot read properties of undefined (reading context)")
  | some sess =>
      .ok { id := idField
            model := modelField
            context := some sess.context
            llama := s.llama.map (fun l =>
              { vramState := l.vramState, deviceNames := l.deviceNames }) }

/-- `disposeSession()`: guard on session presence, then dispose the
session object.  The `session` field itself is not cleared. -/
def disposeSession (s : LlamaWrapper) : OpResult Unit :=
  match s.session with
  | none =>
      { state := s.setStatus .error (some "disposeSession: No session found.")
        result := .error (.error "Ignoring attempt to dispose session, no session found.")
        calls := [] }
  | some sess =>
      { state := { s with session := some { sess with disposed := true } }
        result := .ok ()
        calls := [.dispose] }

/-- `clearHistory()`: guards on session and sequence presence (its status
messages are tagged `disposeSession:` in the source), then wipes the
history in place. -/
def clearHistory (s : LlamaWrapper) : OpResult Unit :=
  match s.session with
  | none =>
      { state := s.setStatus .error (some "disposeSession: No session found.")
        result := .error (.error "Ignoring attempt to clear history, no session found.")
        calls := [] }
  | some sess =>
      if sess.sequence = false then
        { state := s.setStatus .error (some "disposeSession: No sequence found for the session.")
          result := .error (.error "Ignoring attempt to clear history, no sequence found for the session.")
          calls := [] }
      else
        { state := { s with session := some { sess with history := [] } }
          result := .ok ()
          calls := [.clearSequenceHistory] }

/-- `loadModule()`: no precondition; on success the module handle is set
and status becomes ready; on failure status is tagged `loadModule:` (no
space after the colon in the source) and the error propagates. -/
def loadModule (s : LlamaWrapper) (eng : Except String Unit) : OpResult Unit :=
  match eng with
  | .ok _ =>
      { state := { s with module := true, status := { status := .ready, message := none } }
        result := .ok ()
        calls := [.importModule] }
  | .error msg =>
      { state := s.setStatus .error (some ("loadModule:" ++ msg))
        result := .error (.error msg)
        calls := [.importModule] }

/-- The effective gpu argument: `gpu || 'auto'` maps the falsy members
(`false` and `undefined`) to `'auto'`. -/
def effectiveGpu (gpu : Option Gpu) : Gpu :=
  match gpu with
  | none => .auto
  | some .gfalse => .auto
  | some g => g

/-- `loadLlama(gpu?)`: requires the module handle; on success the engine
handle is set; on failure status is tagged `loadLlama: `. -/
def loadLlama (s : LlamaWrapper) (gpu : Option Gpu) (eng : Except String LlamaHandle) :
    OpResult Unit :=
  if s.module = false then
    { state := s.setStatus .error (some "loadLlama: No module found.")
      result := .error (.error "Ignoring attempt to load llama, no module found.")
      calls := [] }
  else
    match eng with
    | .ok h =>
        { state := { s with llama := some h, status := { status := .ready, message := none } }
          result := .ok ()
          calls := [.getLlama (effectiveGpu gpu)] }
    | .error msg =>
        { state := s.setStatus .error (some ("loadLlama: " ++ msg))
          result := .error (.error msg)
          calls := [.getLlama (effectiveGpu gpu)] }

/-- `loadModel(modelPath)`: guards in order on non-empty path, module
presence and engine presence, then attempts the load. -/
def loadModel (s : LlamaWrapper) (modelPath : String) (eng : Except String ModelHandle) :
    OpResult Unit :=
  if modelPath = "" then
    { state := s.setStatus .error (some "loadModel: No path provided.")
      result := .error (.error "Ignoring attempt to load model, no path provided.")
      calls := [] }
  else if s.module = false then
    { state := s.setStatus .error (some "loadModel: No module found.")
      result := .error (.error "Ignoring attempt to load model, no module found.")
      calls := [] }
  else
    match s.llama with
    | none =>
        { state := s.setStatus .error (some "loadModel: No llama lib loaded.")
          result := .error (.error "Ignoring attempt to load model, no llama lib loaded.")
          calls := [] }
    | some _ =>
        match eng with
        | .ok m =>
            { state := { s with model := some m, status := { status := .ready, message := none } }
              result := .ok ()
              calls := [.loadModel modelPath] }
        | .error msg =>
            { state := s.setStatus .error (some ("loadModel: " ++ msg))
              result := .error (.error msg)
              calls := [.loadModel modelPath] }

/-- `initSession(systemPrompt)`: guards in order on model presence and
module presence, then creates a context and a fresh chat session bound to
it.  The engine outcome covers context creation and session opening. -/
def initSession (s : LlamaWrapper) (systemPrompt : String)
    (eng : Except String ContextInfo) : OpResult Unit :=
  match s.model with
  | none =>
      { state := s.setStatus .error (some "initSession: No model loaded.")
        result := .error (.error "Ignoring attempt to initialize session, no model loaded.")
        calls := [] }
  | some _ =>
      if s.module = false then
        { state := s.setStatus .error (some "initSession: No module found.")
          result := .error (.error "Ignoring attempt to initialize session, no module found.")
          calls := [] }
      else
        match eng with
        | .ok ctx =>
            { state := { s with
                session := some
                  { systemPrompt := systemPrompt
                    history := [ChatHistoryItem.system systemPrompt]
                    context := ctx
                    sequence := true
                    disposed := false }
                status := { status := .ready, message := none } }
              result := .ok ()
              calls := [.createContext] }
        | .error msg =>
            { state := s.setStatus .error (some ("initSession: " ++ msg))
              result := .error (.error msg)
              calls := [.createContext] }

/-- `prompt(message, onToken?)`: guard on session presence, then call the
engine with the manager's single abort signal.  On engine failure the
shared error callback runs (abort plus session disposal), status becomes
error tagged `prompt: `, and the error propagates; no partial text is
returned. -/
def prompt (s : LlamaWrapper) (message : String) (eng : Except String String) :
    OpResult String :=
  match s.session with
  | none =>
      { state := s.setStatus .error (some "prompt: No session found.")
        result := .error (.error "Ignoring attempt to prompt, no session found")
        calls := [] }
  | some _ =>
      match eng with
      | .ok answer =>
          { state := { s with status := { status := .ready, message := none } }
            result := .ok answer
            calls := [.generate s.aborted] }
      | .error msg =>
          let s1 := errorCallback s
          { state := s1.setStatus .error (some ("prompt: " ++ msg))
            result := .error (.error msg)
            calls := [.generate s.aborted] }

/-- `getHistory()`: guard on session presence; on success the session's
history is exported; on engine failure the shared error callback runs and
status is tagged `getHistory: `.  `engFail` is the engine outcome (`none`
means the export succeeds). -/
def getHistory (s : LlamaWrapper) (engFail : Option String) :
    OpResult (List ChatHistoryItem) :=
  match s.session with
  | none =>
      { state := s.setStatus .error (some "getHistory: No session found.")
        result := .error (.error "Ignoring history retrieval, no session found")
        calls := [] }
  | some sess =>
      match engFail with
      | none =>
          { state := s.setStatus .ready (some "History retrieved")
            result := .ok sess.history
            calls := [.exportHistory] }
      | some msg =>
          let s1 := errorCallback s
          { state := s1.setStatus .error (some ("getHistory: " ++ msg))
            result := .error (.error msg)
            calls := [.exportHistory] }

/-- `setHistory(items)`: guard on session presence (its guard status
message is tagged `getHistory:` in the source); on success the session's
history is replaced wholesale; on engine failure the shared error callback
runs and status is tagged `setHistory: `. -/
def setHistory (s : LlamaWrapper) (items : List ChatHistoryItem) (engFail : Option String) :
    OpResult Unit :=
  match s.session with
  | none =>
      { state := s.setStatus .error (some "getHistory: No session found.")
        result := .error (.error "Ignoring history update, no session found")
        calls := [] }
  | some sess =>
      match engFail with
      | none =>
          { state := { s with
              session := some { sess with history := items }
              status := { status := .ready, message := some "Chat history loaded" } }
            result := .ok ()
            calls := [.importHistory items] }
      | some msg =>
          let s1 := errorCallback s
          { state := s1.setStatus .error (some ("setHistory: " ++ msg))
            result := .error (.error msg)
            calls := [.importHistory items] }

end LlamaWrapper

/-- One invocation of a state-mutating wrapper method, with the outcome of
its engine call (if any) supplied as data. -/
inductive WrapperOp where
  | loadModule (eng : Except String Unit)
  | loadLlama (gpu : Option Gpu) (eng : Except String LlamaHandle)
  | loadModel (path : String) (eng : Except String ModelHandle)
  | initSession (systemPrompt : String) (eng : Except String ContextInfo)
  | prompt (message : String) (eng : Except String String)
  | getHistory (engFail : Option String)
  | setHistory (items : List ChatHistoryItem) (engFail : Option String)
  | disposeSession
  | clearHistory
deriving DecidableEq, Repr

/-- The possible returned values of a wrapper method, unified. -/
inductive OpRet where
  | unit
  | text (s : String)
  | history (h : List ChatHistoryItem)
deriving DecidableEq, Repr

/-- Run one wrapper method, unifying the return types. -/
def step (s : LlamaWrapper) : WrapperOp → OpResult OpRet
  | .loadModule eng =>
      let r := s.loadModule eng
      { state := r.state, result := r.result.map (fun _ => .unit), calls := r.calls }
  | .loadLlama gpu eng =>
      let r := s.loadLlama gpu eng
      { state := r.state, result := r.result.map (fun _ => .unit), calls := r.calls }
  | .loadModel path eng =>
      let r := s.loadModel path eng
      { state := r.state, result := r.result.map (fun _ => .unit), calls := r.calls }
  | .initSession sp eng =>
      let r := s.initSession sp eng
      { state := r.state, result := r.result.map (fun _ => .unit), calls := r.calls }
  | .prompt msg eng =>
      let r := s.prompt msg eng
      { state := r.state, result := r.result.map .text, calls := r.calls }
  | .getHistory engFail =>
      let r := s.getHistory engFail
      { state := r.state, result := r.result.map .history, calls := r.calls }
  | .setHistory items engFail =>
      let r := s.setHistory items engFail
      { state := r.state, result := r.result.map (fun _ => .unit), calls := r.calls }
  | .disposeSession =>
      let r := s.disposeSession
      { state := r.state, result := r.result.map (fun _ => .unit), calls := r.calls }
  | .clearHistory =>
      let r := s.clearHistory
      { state := r.state, result := r.result.map (fun _ => .unit), calls := r.calls }

/-- True when a method outcome is a thrown error. -/
def errResult {α : Type} (r : Except JsError α) : Bool :=
  match r with
  | .error _ => true
  | .ok _ => false

/-! Concrete fixtures used by closed witness theorems. -/

/-- A concrete context record. -/
def sampleContext : ContextInfo :=
  { batchSize := 512, contextSize := 4096, sequencesLeft := 1,
    stateSize := 1000, totalSequences := 2 }

/-- A concrete live session. -/
def sampleSession : SessionHandle :=
  { systemPrompt := "You are an assistant."
    history := [ChatHistoryItem.system "You are an assistant."]
    context := sampleContext
    sequence := true
    disposed := false }

/-- A concrete model handle. -/
def sampleModel : ModelHandle :=
  { filename := "model.gguf", trainContextSize := 4096 }

/-- A concrete engine handle. -/
def sampleLlama : LlamaHandle :=
  { vramState := { total := 8, used := 2, free := 6 }, deviceNames := ["gpu0"] }

/-- A fully set-up manager: module, engine, model and session present. -/
def readyWrapper : LlamaWrapper :=
  { id := "w1"
    session := some sampleSession
    status := { status := .ready, message := none }
    model := some sampleModel
    aborted := false
    module := true
    llama := some sampleLlama }

/-- A manager whose cancellation signal has already fired. -/
def abortedWrapper : LlamaWrapper :=
  { readyWrapper with aborted := true }

/-- A concrete non-empty chat history. -/
def sampleItems : List ChatHistoryItem :=
  [ChatHistoryItem.user "Hey.", ChatHistoryItem.model ["Hello !"]]

/-- Claim C9: immediately after construction, before any other operation,
getStatus returns the Uninitialized phase together with the
construction-time diagnostic message. -/
theorem c9_status_after_construction (id : String) :
    (LlamaWrapper.construct id).getStatus =
      { status := .uninitialized, message := some "Wrapper not initialized" } := rfl

/-- Claim C1, refuted by the code: getInfos on a freshly constructed
manager (no module, engine, model or session) does not return an
identity-only snapshot; it fails with a TypeError, because the context
block reads session.context without first checking that the session
exists, unlike the guarded id, model and llama blocks. -/
theorem c1_getInfos_fails_before_setup :
    (LlamaWrapper.construct "w0").getInfos =
      .error (.typeError "Cannot read properties of undefined (reading context)") := rfl

/-- Claim C5, refuted by the code: the guard-failure status messages of
clearHistory are tagged with the neighbouring operation name
disposeSession, and the guard-failure status message of setHistory is
tagged getHistory, so those tags do not name the operation whose
precondition was violated. -/
theorem c5_guard_tags_misname_their_operation :
    ((LlamaWrapper.construct "w0").clearHistory).state.status.message =
        some "disposeSession: No session found." ∧
    ((LlamaWrapper.construct "w0").setHistory [] none).state.status.message =
        some "getHistory: No session found." :=
  ⟨rfl, rfl⟩

/-- Claim C3: whenever a prompt call with a session present fails during
generation, the shared abort action runs (the cancellation token is
signalled and the session is disposed), the status becomes error with the
prompt-tagged diagnostic, and the call propagates an error rather than
returning any text. -/
theorem c3_failing_prompt_aborts_and_propagates
    (s : LlamaWrapper) (sess : SessionHandle) (message msg : String)
    (hs : s.session = some sess) :
    (s.prompt message (.error msg)).state.aborted = true ∧
    (s.prompt message (.error msg)).state.session = some { sess with disposed := true } ∧
    (s.prompt message (.error msg)).state.status =
      { status := .error, message := some ("prompt: " ++ msg) } ∧
    (s.prompt message (.error msg)).result = .error (.error msg) := by
  simp [LlamaWrapper.prompt, LlamaWrapper.errorCallback, LlamaWrapper.setStatus, hs]

/-- Witness for C3 at a concrete fully set-up manager and failure. -/
theorem c3_witness :
    (readyWrapper.prompt "hi" (.error "boom")).state.aborted = true ∧
    (readyWrapper.prompt "hi" (.error "boom")).state.session =
      some { sampleSession with disposed := true } ∧
    (readyWrapper.prompt "hi" (.error "boom")).state.status =
      { status := .error, message := some ("prompt: " ++ "boom") } ∧
    (readyWrapper.prompt "hi" (.error "boom")).result = .error (.error "boom") :=
  c3_failing_prompt_aborts_and_propagates readyWrapper sampleSession "hi" "boom" rfl

/-- Claim C8: with a session present, a successful setHistory(items)
followed immediately by getHistory() returns exactly items. -/
theorem c8_history_round_trip
    (s : LlamaWrapper) (sess : SessionHandle) (items : List ChatHistoryItem)
    (hs : s.session = some sess) (_hne : items ≠ []) :
    (s.setHistory items none).result = .ok () ∧
    ((s.setHistory items none).state.getHistory none).result = .ok items := by
  simp [LlamaWrapper.setHistory, LlamaWrapper.getHistory, LlamaWrapper.setStatus, hs]

/-- Witness for C8 at a concrete manager and a concrete non-empty
history. -/
theorem c8_witness :
    (readyWrapper.setHistory sampleItems none).result = .ok () ∧
    ((readyWrapper.setHistory sampleItems none).state.getHistory none).result =
      .ok sampleItems :=
  c8_history_round_trip readyWrapper sampleSession sampleItems rfl (by decide)

/-- Claim C10: when the session is absent, the guard failures of prompt,
getHistory and setHistory leave the cancellation signal exactly as it was,
leave the session field unchanged, attempt no engine call, and set the
error status while throwing. -/
theorem c10_guard_failures_never_abort (s : LlamaWrapper) (h : s.session = none) :
    (∀ m e, (s.prompt m e).state.aborted = s.aborted ∧
        (s.prompt m e).state.session = s.session ∧
        (s.prompt m e).calls = [] ∧
        (s.prompt m e).state.status.status = .error ∧
        (s.prompt m e).result =
          .error (.error "Ignoring attempt to prompt, no session found")) ∧
    (∀ f, (s.getHistory f).state.aborted = s.aborted ∧
        (s.getHistory f).state.session = s.session ∧
        (s.getHistory f).calls = [] ∧
        (s.getHistory f).state.status.status = .error ∧
        (s.getHistory f).result =
          .error (.error "Ignoring history retrieval, no session found")) ∧
    (∀ items f, (s.setHistory items f).state.aborted = s.aborted ∧
        (s.setHistory items f).state.session = s.session ∧
        (s.setHistory items f).calls = [] ∧
        (s.setHistory items f).state.status.status = .error ∧
        (s.setHistory items f).result =
          .error (.error "Ignoring history update, no session found")) := by
  refine ⟨fun m e => ?_, fun f => ?_, fun items f => ?_⟩ <;>
    simp [LlamaWrapper.prompt, LlamaWrapper.getHistory, LlamaWrapper.setHistory,
      LlamaWrapper.setStatus, h]

/-- Witness for C10 at a freshly constructed manager. -/
theorem c10_witness :
    ((LlamaWrapper.construct "w0").prompt "hi" (.ok "x")).state.aborted =
        (LlamaWrapper.construct "w0").aborted ∧
    ((LlamaWrapper.construct "w0").prompt "hi" (.ok "x")).state.session =
        (LlamaWrapper.construct "w0").session ∧
    ((LlamaWrapper.construct "w0").prompt "hi" (.ok "x")).calls = [] ∧
    ((LlamaWrapper.construct "w0").prompt "hi" (.ok "x")).state.status.status = .error ∧
    ((LlamaWrapper.construct "w0").prompt "hi" (.ok "x")).result =
      .error (.error "Ignoring attempt to prompt, no session found") :=
  (c10_guard_failures_never_abort (LlamaWrapper.construct "w0") rfl).1 "hi" (.ok "x")

/-- Counterexample to claim C2 as stated: after a successful
disposeSession() on a fully set-up manager, a subsequent prompt() does not
fail with the PreconditionError reporting the session as absent: the
session field was never cleared, so the guard passes, the engine call is
attempted on the disposed session, and the resulting diagnostic carries
the engine failure text, not the no-session precondition message. -/
theorem c2_counterexample :
    readyWrapper.disposeSession.result = .ok () ∧
    (readyWrapper.disposeSession.state.prompt "hi" (.error "Object is disposed")).calls =
      [.generate false] ∧
    (readyWrapper.disposeSession.state.prompt "hi" (.error "Object is disposed")).state.status.message =
      some "prompt: Object is disposed" ∧
    (readyWrapper.disposeSession.state.prompt "hi" (.error "Object is disposed")).state.status.message ≠
      some "prompt: No session found." :=
  ⟨rfl, rfl, rfl, by decide⟩

/-- Claim C2 as amended: disposeSession() with no session fails and sets
the error status; a successful disposeSession() marks the session disposed
but keeps the session reference, so a subsequent prompt() passes its
precondition guard, attempts the engine call, and reports any failure with
the engine-tagged diagnostic rather than a PreconditionError. -/
theorem c2_dispose_then_prompt (s : LlamaWrapper) :
    (s.session = none →
      s.disposeSession.result =
        .error (.error "Ignoring attempt to dispose session, no session found.") ∧
      s.disposeSession.state.status =
        { status := .error, message := some "disposeSession: No session found." }) ∧
    (∀ sess, s.session = some sess →
      s.disposeSession.result = .ok () ∧
      s.disposeSession.state.session = some { sess with disposed := true } ∧
      ∀ m msg,
        (s.disposeSession.state.prompt m (.error msg)).calls = [.generate s.aborted] ∧
        (s.disposeSession.state.prompt m (.error msg)).state.status.message =
          some ("prompt: " ++ msg)) := by
  constructor
  · intro h
    simp [LlamaWrapper.disposeSession, LlamaWrapper.setStatus, h]
  · intro sess hs
    refine ⟨?_, ?_, ?_⟩
    · simp [LlamaWrapper.disposeSession, hs]
    · simp [LlamaWrapper.disposeSession, hs]
    · intro m msg
      simp [LlamaWrapper.disposeSession, LlamaWrapper.prompt, LlamaWrapper.errorCallback,
        LlamaWrapper.setStatus, hs]

/-- Witness for C2 as amended: the no-session branch at a fresh manager
and the live-session branch at a fully set-up manager. -/
theorem c2_witness :
    ((LlamaWrapper.construct "w0").disposeSession.result =
        .error (.error "Ignoring attempt to dispose session, no session found.") ∧
      (LlamaWrapper.construct "w0").disposeSession.state.status =
        { status := .error, message := some "disposeSession: No session found." }) ∧
    (readyWrapper.disposeSession.result = .ok () ∧
      readyWrapper.disposeSession.state.session =
        some { sampleSession with disposed := true } ∧
      ((readyWrapper.disposeSession.state.prompt "hi" (.error "boom")).calls =
          [.generate readyWrapper.aborted] ∧
        (readyWrapper.disposeSession.state.prompt "hi" (.error "boom")).state.status.message =
          some ("prompt: " ++ "boom"))) :=
  ⟨(c2_dispose_then_prompt (LlamaWrapper.construct "w0")).1 rfl,
    ((c2_dispose_then_prompt readyWrapper).2 sampleSession rfl).1,
    ((c2_dispose_then_prompt readyWrapper).2 sampleSession rfl).2.1,
    ((c2_dispose_then_prompt readyWrapper).2 sampleSession rfl).2.2 "hi" "boom"⟩

/-- Claim C4: every setup call issued before its dependency stage is
satisfied (engine load without the module, model load without the module
or engine or with an empty path, session init without the model or
module) fails with its precondition diagnostic, sets the error status, and
attempts no engine call. -/
theorem c4_out_of_order_setup_guards :
    (∀ (s : LlamaWrapper) gpu eng, s.module = false →
        (s.loadLlama gpu eng).result =
          .error (.error "Ignoring attempt to load llama, no module found.") ∧
        (s.loadLlama gpu eng).state.status =
          { status := .error, message := some "loadLlama: No module found." } ∧
        (s.loadLlama gpu eng).calls = []) ∧
    (∀ (s : LlamaWrapper) path eng,
        (path = "" ∨ s.module = false ∨ s.llama = none) →
        errResult (s.loadModel path eng).result = true ∧
        (s.loadModel path eng).state.status.status = .error ∧
        ((s.loadModel path eng).state.status.message = some "loadModel: No path provided." ∨
          (s.loadModel path eng).state.status.message = some "loadModel: No module found." ∨
          (s.loadModel path eng).state.status.message = some "loadModel: No llama lib loaded.") ∧
        (s.loadModel path eng).calls = []) ∧
    (∀ (s : LlamaWrapper) sp eng,
        (s.model = none ∨ s.module = false) →
        errResult (s.initSession sp eng).result = true ∧
        (s.initSession sp eng).state.status.status = .error ∧
        ((s.initSession sp eng).state.status.message = some "initSession: No model loaded." ∨
          (s.initSession sp eng).state.status.message = some "initSession: No module found.") ∧
        (s.initSession sp eng).calls = []) := by
  refine ⟨?_, ?_, ?_⟩
  · intro s gpu eng h
    simp [LlamaWrapper.loadLlama, LlamaWrapper.setStatus, h]
  · intro s path eng h
    by_cases hp : path = ""
    · simp [LlamaWrapper.loadModel, LlamaWrapper.setStatus, hp, errResult]
    · by_cases hm : s.module = false
      · simp [LlamaWrapper.loadModel, LlamaWrapper.setStatus, hp, hm, errResult]
      · have hl : s.llama = none := by
          rcases h with h | h | h
          · exact absurd h hp
          · exact absurd h hm
          · exact h
        simp [LlamaWrapper.loadModel, LlamaWrapper.setStatus, hp, hm, hl, errResult]
  · intro s sp eng h
    by_cases hmo : s.model = none
    · simp [LlamaWrapper.initSession, LlamaWrapper.setStatus, hmo, errResult]
    · have hm : s.module = false := by
        rcases h with h | h
        · exact absurd h hmo
        · exact h
      rcases hx : s.model with _ | mdl
      · exact absurd hx hmo
      · simp [LlamaWrapper.initSession, LlamaWrapper.setStatus, hx, hm, errResult]

/-- Witness for C4 at a freshly constructed manager, one instance per
out-of-order setup call. -/
theorem c4_witness :
    (((LlamaWrapper.construct "w0").loadLlama none (.ok sampleLlama)).result =
        .error (.error "Ignoring attempt to load llama, no module found.") ∧
      ((LlamaWrapper.construct "w0").loadLlama none (.ok sampleLlama)).state.status =
        { status := .error, message := some "loadLlama: No module found." } ∧
      ((LlamaWrapper.construct "w0").loadLlama none (.ok sampleLlama)).calls = []) ∧
    (errResult ((LlamaWrapper.construct "w0").loadModel "m.gguf" (.ok sampleModel)).result = true ∧
      ((LlamaWrapper.construct "w0").loadModel "m.gguf" (.ok sampleModel)).state.status.status = .error ∧
      (((LlamaWrapper.construct "w0").loadModel "m.gguf" (.ok sampleModel)).state.status.message =
          some "loadModel: No path provided." ∨
        ((LlamaWrapper.construct "w0").loadModel "m.gguf" (.ok sampleModel)).state.status.message =
          some "loadModel: No module found." ∨
        ((LlamaWrapper.construct "w0").loadModel "m.gguf" (.ok sampleModel)).state.status.message =
          some "loadModel: No llama lib loaded.") ∧
      ((LlamaWrapper.construct "w0").loadModel "m.gguf" (.ok sampleModel)).calls = []) ∧
    (errResult ((LlamaWrapper.construct "w0").initSession "sys" (.ok sampleContext)).result = true ∧
      ((LlamaWrapper.construct "w0").initSession "sys" (.ok sampleContext)).state.status.status = .error ∧
      (((LlamaWrapper.construct "w0").initSession "sys" (.ok sampleContext)).state.status.message =
          some "initSession: No model loaded." ∨
        ((LlamaWrapper.construct "w0").initSession "sys" (.ok sampleContext)).state.status.message =
          some "initSession: No module found.") ∧
      ((LlamaWrapper.construct "w0").initSession "sys" (.ok sampleContext)).calls = []) :=
  ⟨c4_out_of_order_setup_guards.1 (LlamaWrapper.construct "w0") none (.ok sampleLlama) rfl,
    c4_out_of_order_setup_guards.2.1 (LlamaWrapper.construct "w0") "m.gguf" (.ok sampleModel)
      (Or.inr (Or.inl rfl)),
    c4_out_of_order_setup_guards.2.2 (LlamaWrapper.construct "w0") "sys" (.ok sampleContext)
      (Or.inl rfl)⟩

/-- Claim C6: every state-mutating operation that surfaces an error (guard
failure or engine failure) leaves the manager with the error status and a
present diagnostic message, so a caller that catches the error and then
reads getStatus() observes them. -/
theorem c6_error_implies_error_status (s : LlamaWrapper) (op : WrapperOp)
    (h : errResult (step s op).result = true) :
    (step s op).state.status.status = .error ∧
    (step s op).state.status.message ≠ none := by
  revert h
  cases op <;>
    simp only [step, LlamaWrapper.loadModule, LlamaWrapper.loadLlama, LlamaWrapper.loadModel,
      LlamaWrapper.initSession, LlamaWrapper.prompt, LlamaWrapper.getHistory,
      LlamaWrapper.setHistory, LlamaWrapper.disposeSession, LlamaWrapper.clearHistory,
      LlamaWrapper.errorCallback, LlamaWrapper.setStatus, errResult] <;>
    (repeat' split) <;>
    simp_all [Except.map]

/-- Witness for C6: disposeSession on a fresh manager surfaces an error
and the status shows it. -/
theorem c6_witness :
    (step (LlamaWrapper.construct "w0") .disposeSession).state.status.status = .error ∧
    (step (LlamaWrapper.construct "w0") .disposeSession).state.status.message ≠ none :=
  c6_error_implies_error_status (LlamaWrapper.construct "w0") .disposeSession rfl

/-- Claim C7: the cancellation signal is unfired at construction, every
prompt call with a session present passes the manager's single signal to
the engine generation call, and no operation ever re-arms a fired signal. -/
theorem c7_cancellation_one_shot :
    (∀ id, (LlamaWrapper.construct id).aborted = false) ∧
    (∀ (s : LlamaWrapper) (op : WrapperOp), s.aborted = true →
      (step s op).state.aborted = true) ∧
    (∀ (s : LlamaWrapper) (sess : SessionHandle) m e, s.session = some sess →
      (s.prompt m e).calls = [.generate s.aborted]) := by
  refine ⟨fun _ => rfl, ?_, ?_⟩
  · intro s op h
    cases op <;>
      simp only [step, LlamaWrapper.loadModule, LlamaWrapper.loadLlama, LlamaWrapper.loadModel,
        LlamaWrapper.initSession, LlamaWrapper.prompt, LlamaWrapper.getHistory,
        LlamaWrapper.setHistory, LlamaWrapper.disposeSession, LlamaWrapper.clearHistory,
        LlamaWrapper.errorCallback, LlamaWrapper.setStatus] <;>
      (repeat' split) <;>
      simp_all [Except.map]
  · intro s sess m e hs
    cases e <;> simp [LlamaWrapper.prompt, LlamaWrapper.errorCallback, LlamaWrapper.setStatus, hs]

/-- Witness for C7: the unfired signal of a fresh manager, the signal
staying fired across an operation, and the signal value recorded by a
concrete prompt call. -/
theorem c7_witness :
    (LlamaWrapper.construct "w0").aborted = false ∧
    (step abortedWrapper .disposeSession).state.aborted = true ∧
    (readyWrapper.prompt "hi" (.ok "ok")).calls = [.generate readyWrapper.aborted] :=
  ⟨c7_cancellation_one_shot.1 "w0",
    c7_cancellation_one_shot.2.1 abortedWrapper .disposeSession rfl,
    c7_cancellation_one_shot.2.2 readyWrapper sampleSession "hi" (.ok "ok") rfl⟩

end Llama3Wrapper
